import Mathlib

/-!
# Display (src/Display.cpp): embedding and verified properties

The class `project::Display` owns a window, a renderer (the render target), a
font and a vector of textures (the image registry).  Every member function is
embedded as a function on an explicit state.  The state pairs the data members
of the object with the chronological list of the calls made into the native
libraries (SDL2, SDL2_image, SDL2_ttf).  What a native call returns is not
decided by the program, so it is read from an environment `Env` that maps the
history of calls made so far (the call being answered is its last element) to
the returned status code, the returned pointer and the text of `SDL_GetError()`.

A C++ pointer is an `Option Handle` (`none` is `nullptr`).  A thrown
`domain_error` is the `raised` component of an `Outcome`, holding the text of
`what()`.  Lines written to `cout` and `cerr` are not part of the state.
-/

namespace project

/-- The address held by a non-null native pointer. -/
abbrev Handle := Nat

/-- A nullable native pointer; `none` is `nullptr`. -/
abbrev Ptr := Option Handle

/-- The rectangle structure of SDL (`x`, `y`, `w`, `h`). -/
structure SDL_Rect where
  x : Int
  y : Int
  w : Int
  h : Int
deriving DecidableEq, Repr

/-- The two flip values that `refresh` passes to `SDL_RenderCopyEx`. -/
inductive SDL_RendererFlip where
  | SDL_FLIP_NONE
  | SDL_FLIP_HORIZONTAL
deriving DecidableEq, Repr

/-- The colour structure of SDL. -/
structure SDL_Color where
  r : Nat
  g : Nat
  b : Nat
  a : Nat
deriving DecidableEq, Repr

/-- One call into the native libraries, with the arguments passed at the call
site.  `SDL_GetError` is a query and is read from the environment instead. -/
inductive NativeCall where
  | SDL_Init
  | SDL_CreateWindow (title : String) (w h : Int)
  | SDL_CreateRenderer (window : Ptr)
  | TTF_Init
  | TTF_OpenFont (file : String) (ptsize : Int)
  | SDL_DestroyTexture (texture : Ptr)
  | SDL_DestroyRenderer (renderer : Ptr)
  | SDL_DestroyWindow (window : Ptr)
  | TTF_CloseFont (font : Ptr)
  | TTF_Quit
  | SDL_Quit
  | IMG_Load (file : String)
  | SDL_CreateTextureFromSurface (renderer surface : Ptr)
  | SDL_FreeSurface (surface : Ptr)
  | SDL_RenderCopyEx (renderer texture : Ptr) (srcrect dstrect : Option SDL_Rect)
      (angle : Int) (center : Option (Int × Int)) (flip : SDL_RendererFlip)
  | SDL_RenderPresent (renderer : Ptr)
  | SDL_SetRenderDrawColor (renderer : Ptr) (r g b a : Nat)
  | SDL_RenderClear (renderer : Ptr)
  | TTF_RenderText_Solid (font : Ptr) (text : String) (fg : SDL_Color)
deriving DecidableEq, Repr

/-- The behaviour of the native libraries: what the last call of a history
returns (`status` for calls returning `int`, `pointer` for calls returning a
pointer) and what `SDL_GetError()` reads after a history. -/
structure Env where
  status : List NativeCall → Int
  pointer : List NativeCall → Ptr
  error : List NativeCall → String

/-- Modelled from the spec: the class `Sprite` (Sprite.h is not among the
sources), a plain data holder read through the accessors that `refresh` calls:
position and size are integers, the image index is an integer ≥ 0 and the
orientation is a boolean. -/
structure Sprite where
  getXCoordinate : Int
  getYCoordinate : Int
  getWidth : Int
  getHeight : Int
  getImageIndex : Nat
  getDirection : Bool
deriving DecidableEq, Repr

/-- Modelled from the spec: the data members of class `Display` (Display.h is
not among the sources): the fixed dimensions, the three nullable handles and
the ordered registry of image handles. -/
structure Display where
  width_ : Int
  height_ : Int
  window_ : Ptr
  renderer_ : Ptr
  font_ : Ptr
  images_ : List Ptr
deriving DecidableEq, Repr

/-- The object together with the chronological history of native calls. -/
structure State where
  display : Display
  calls : List NativeCall
deriving DecidableEq, Repr

/-- The result of a member function that may throw: the state it leaves and
the `what()` text of the `domain_error` it threw, if any. -/
structure Outcome where
  state : State
  raised : Option String
deriving DecidableEq, Repr

/-- The loop of `close` over `images_`: one `SDL_DestroyTexture` per non-null
entry, in registry order. -/
def destroyImages : List Ptr → List NativeCall
  | [] => []
  | none :: rest => destroyImages rest
  | some image :: rest => NativeCall.SDL_DestroyTexture (some image) :: destroyImages rest

/-- The native calls that `close` makes on an object whose members are `d`. -/
def closeCalls (d : Display) : List NativeCall :=
  destroyImages d.images_
    ++ (match d.renderer_ with
        | some r => [NativeCall.SDL_DestroyRenderer (some r)]
        | none => [])
    ++ (match d.window_ with
        | some w => [NativeCall.SDL_DestroyWindow (some w)]
        | none => [])
    ++ (match d.font_ with
        | some f => [NativeCall.TTF_CloseFont (some f), NativeCall.TTF_Quit]
        | none => [])
    ++ [NativeCall.SDL_Quit]

/-- The function `Display::close` (noexcept): destroys the images and clears
the vector, destroys the renderer and the window and sets both to `nullptr`,
closes the font when `font_` is non-null (the member keeps its value), and
quits SDL. -/
def close (s : State) : State :=
  { display := { s.display with images_ := [], renderer_ := none, window_ := none },
    calls := s.calls ++ closeCalls s.display }

/-- The function `Display::addImage` (noexcept): nothing happens on an absent
renderer; otherwise the file is decoded, the surface is converted to a texture
that is appended to `images_` when it is non-null, and the surface is freed. -/
def addImage (env : Env) (fileLocation : String) (s : State) : State :=
  match s.display.renderer_ with
  | none => s
  | some r =>
    let calls1 := s.calls ++ [NativeCall.IMG_Load fileLocation]
    match env.pointer calls1 with
    | some imageSurface =>
      let calls2 := calls1 ++
        [NativeCall.SDL_CreateTextureFromSurface (some r) (some imageSurface)]
      match env.pointer calls2 with
      | some imageTexture =>
        { display := { s.display with images_ := s.display.images_ ++ [some imageTexture] },
          calls := calls2 ++ [NativeCall.SDL_FreeSurface (some imageSurface)] }
      | none =>
        { s with calls := calls2 ++ [NativeCall.SDL_FreeSurface (some imageSurface)] }
    | none => { s with calls := calls1 }

/-- The function `Display::getImageCount`: the size of `images_`.  The C++
function returns it as `unsigned int`; a registry holds one live texture per
entry and its size is taken to be below 2^32, where that conversion is the
identity. -/
def getImageCount (s : State) : Nat :=
  s.display.images_.length

/-- The statement pair `close(); throw domain_error(what + SDL_GetError())`. -/
def closeAndThrow (env : Env) (what : String) (s : State) : Outcome :=
  let s1 := close s
  { state := s1, raised := some (what ++ env.error s1.calls) }

/-- The function `Display::clearBackground`: on a present renderer, set the
draw colour to opaque white and clear; either call returning non-zero closes
the display and throws. -/
def clearBackground (env : Env) (s : State) : Outcome :=
  match s.display.renderer_ with
  | none => { state := s, raised := none }
  | some r =>
    let s1 : State :=
      { s with calls := s.calls ++ [NativeCall.SDL_SetRenderDrawColor (some r) 255 255 255 255] }
    if env.status s1.calls ≠ 0 then
      closeAndThrow env "Unable to set the background color due to: " s1
    else
      let s2 : State := { s1 with calls := s1.calls ++ [NativeCall.SDL_RenderClear (some r)] }
      if env.status s2.calls ≠ 0 then
        closeAndThrow env "Unable to set the background color due to: " s2
      else
        { state := s2, raised := none }

/-- The destination rectangle that `refresh` fills from a sprite. -/
def destination (sprite : Sprite) : SDL_Rect :=
  { x := sprite.getXCoordinate, y := sprite.getYCoordinate,
    w := sprite.getWidth, h := sprite.getHeight }

/-- The range-for loop of `Display::refresh` over the sprites.  The index is
an `unsigned int`, so the first half of the test `imageIndex >= 0 &&
imageIndex < images_.size()` always holds; `images_.at(imageIndex)` is read
under the second half, where it cannot throw. -/
def drawSprites (env : Env) : List Sprite → State → Outcome
  | [], s => { state := s, raised := none }
  | sprite :: rest, s =>
    let imageIndex := sprite.getImageIndex
    if imageIndex < s.display.images_.length then
      match s.display.images_.getD imageIndex none with
      | some imageTexture =>
        let flip :=
          if !sprite.getDirection then SDL_RendererFlip.SDL_FLIP_HORIZONTAL
          else SDL_RendererFlip.SDL_FLIP_NONE
        let s1 : State :=
          { s with calls := s.calls ++
              [NativeCall.SDL_RenderCopyEx s.display.renderer_ (some imageTexture) none
                (some (destination sprite)) 0 none flip] }
        if env.status s1.calls ≠ 0 then
          closeAndThrow env "Unable to render a sprite due to: " s1
        else
          drawSprites env rest s1
      | none =>
        { state := close s,
          raised := some ("Missing image texture at index " ++ toString imageIndex) }
    else
      { state := close s,
        raised := some ("Invalid image index " ++ toString imageIndex) }

/-- The first block of `Display::refresh`, run when `renderer_` is non-null:
clear, draw every sprite, present. -/
def renderFrame (env : Env) (sprites : List Sprite) (s : State) : Outcome :=
  let o1 := clearBackground env s
  match o1.raised with
  | some e => { state := o1.state, raised := some e }
  | none =>
    let o2 := drawSprites env sprites o1.state
    match o2.raised with
    | some e => { state := o2.state, raised := some e }
    | none =>
      { state := { o2.state with calls := o2.state.calls ++
          [NativeCall.SDL_RenderPresent o2.state.display.renderer_] },
        raised := none }

/-- The function `Display::refresh`: the frame when `renderer_` is non-null,
then, unless the frame threw, the rasterization of `text` when `font_` is
non-null (the returned surface is dropped). -/
def refresh (env : Env) (sprites : List Sprite) (text : String) (s : State) : Outcome :=
  let o :=
    match s.display.renderer_ with
    | some _ => renderFrame env sprites s
    | none => { state := s, raised := none }
  match o.raised with
  | some e => { state := o.state, raised := some e }
  | none =>
    match o.state.display.font_ with
    | some f =>
      { state := { o.state with calls := o.state.calls ++
          [NativeCall.TTF_RenderText_Solid (some f) text { r := 0, g := 0, b := 0, a := 0 }] },
        raised := none }
    | none => { state := o.state, raised := none }

/-- The constructor `Display::Display(width, height)`, run after the native
history `history`.  When it throws, `state` holds the members and the native
history at the throw. -/
def construct (env : Env) (width height : Int) (history : List NativeCall) : Outcome :=
  let s0 : State :=
    { display := { width_ := width, height_ := height, window_ := none, renderer_ := none,
                   font_ := none, images_ := [] },
      calls := history ++ [NativeCall.SDL_Init] }
  if env.status s0.calls ≠ 0 then
    { state := s0, raised := some ("SDL Initialization failed due to: " ++ env.error s0.calls) }
  else
    let calls1 := s0.calls ++ [NativeCall.SDL_CreateWindow "Display" width height]
    let s1 : State :=
      { display := { s0.display with window_ := env.pointer calls1 }, calls := calls1 }
    match s1.display.window_ with
    | none => closeAndThrow env "Unable to create the window due to: " s1
    | some _ =>
      let calls2 := s1.calls ++ [NativeCall.SDL_CreateRenderer s1.display.window_]
      let s2 : State :=
        { display := { s1.display with renderer_ := env.pointer calls2 }, calls := calls2 }
      match s2.display.renderer_ with
      | none => closeAndThrow env "Unable to create the renderer due to: " s2
      | some _ =>
        let s3 : State := { s2 with calls := s2.calls ++ [NativeCall.TTF_Init] }
        if env.status s3.calls = -1 then
          { state := s3,
            raised := some ("TTF Initialization failed due to: " ++ env.error s3.calls) }
        else
          let calls4 := s3.calls ++
            [NativeCall.TTF_OpenFont "graphics/rubber-biscuit.bold.ttf" 32]
          let s4 : State :=
            { display := { s3.display with font_ := env.pointer calls4 }, calls := calls4 }
          match s4.display.font_ with
          | none => closeAndThrow env "Unable to create font due to: " s4
          | some _ => clearBackground env s4

/-! ## Vocabulary of the properties -/

/-- The native calls made between the state `before` and the later state
`after`. -/
def issued (before after : State) : List NativeCall :=
  after.calls.drop before.calls.length

/-- An `addImage` call on `s` fails at decoding: `IMG_Load` returns `nullptr`. -/
def decodeFails (env : Env) (fileLocation : String) (s : State) : Bool :=
  (env.pointer (s.calls ++ [NativeCall.IMG_Load fileLocation])).isNone

/-- An `addImage` call on `s` fails at texture conversion: `IMG_Load` returns a
surface and `SDL_CreateTextureFromSurface` returns `nullptr` for it. -/
def conversionFails (env : Env) (fileLocation : String) (s : State) : Bool :=
  match env.pointer (s.calls ++ [NativeCall.IMG_Load fileLocation]) with
  | none => false
  | some imageSurface =>
    (env.pointer (s.calls ++ [NativeCall.IMG_Load fileLocation] ++
      [NativeCall.SDL_CreateTextureFromSurface s.display.renderer_ (some imageSurface)])).isNone

/-- An `addImage` call on `s` succeeds: the renderer is present and neither
the decoding nor the conversion fails. -/
def loadSucceeds (env : Env) (fileLocation : String) (s : State) : Bool :=
  s.display.renderer_.isSome && !decodeFails env fileLocation s
    && !conversionFails env fileLocation s

/-- A sequence of `addImage` calls, one per path, in order. -/
def addImages (env : Env) : List String → State → State
  | [], s => s
  | fileLocation :: rest, s => addImages env rest (addImage env fileLocation s)

/-- The number of calls of a sequence of `addImage` calls that succeed. -/
def successes (env : Env) : List String → State → Nat
  | [], _ => 0
  | fileLocation :: rest, s =>
    (if loadSucceeds env fileLocation s then 1 else 0)
      + successes env rest (addImage env fileLocation s)

/-- The calls that release a texture, a renderer or a window. -/
def isDestroyCall : NativeCall → Bool
  | NativeCall.SDL_DestroyTexture _ => true
  | NativeCall.SDL_DestroyRenderer _ => true
  | NativeCall.SDL_DestroyWindow _ => true
  | _ => false

/-- The blit call. -/
def isBlit : NativeCall → Bool
  | NativeCall.SDL_RenderCopyEx _ _ _ _ _ _ _ => true
  | _ => false

/-- The present call. -/
def isPresent : NativeCall → Bool
  | NativeCall.SDL_RenderPresent _ => true
  | _ => false

/-- The clear and blit calls, whose status code `refresh` tests. -/
def isDrawCall : NativeCall → Bool
  | NativeCall.SDL_SetRenderDrawColor _ _ _ _ _ => true
  | NativeCall.SDL_RenderClear _ => true
  | NativeCall.SDL_RenderCopyEx _ _ _ _ _ _ _ => true
  | _ => false

/-- The calls whose first argument is the renderer and that draw on it. -/
def onRenderTarget : NativeCall → Bool
  | NativeCall.SDL_SetRenderDrawColor _ _ _ _ _ => true
  | NativeCall.SDL_RenderClear _ => true
  | NativeCall.SDL_RenderCopyEx _ _ _ _ _ _ _ => true
  | NativeCall.SDL_RenderPresent _ => true
  | _ => false

/-- No native clear or blit call made after the history `before` fails: each
returns status 0, whatever calls were made in between. -/
def DrawCallsSucceed (env : Env) (before : List NativeCall) : Prop :=
  ∀ (later : List NativeCall) (c : NativeCall),
    isDrawCall c = true → env.status (before ++ later ++ [c]) = 0

/-- The blit of a sprite as the specification words it: the registry entry at
the image index of the sprite, no source rectangle, the destination rectangle
(x, y, width, height) of the sprite, angle 0, no rotation centre, and a flip
that is horizontal when the orientation flag is false and none when it is
true. -/
def specBlit (d : Display) (sprite : Sprite) : NativeCall :=
  NativeCall.SDL_RenderCopyEx d.renderer_ (d.images_.getD sprite.getImageIndex none) none
    (some { x := sprite.getXCoordinate, y := sprite.getYCoordinate,
            w := sprite.getWidth, h := sprite.getHeight })
    0 none
    (match sprite.getDirection with
     | false => SDL_RendererFlip.SDL_FLIP_HORIZONTAL
     | true => SDL_RendererFlip.SDL_FLIP_NONE)

/-- Every registry entry is a present handle. -/
def RegistryPresent (d : Display) : Prop :=
  ∀ e ∈ d.images_, e ≠ none

/-- The states of a display: those a successfully constructed object reaches
by any sequence of `addImage`, `refresh`, `clearBackground` and `close` calls
(a `refresh` or `clearBackground` that throws leaves the object in the state
at the throw). -/
inductive Reachable (env : Env) : State → Prop where
  | constructed (width height : Int) (history : List NativeCall) :
      (construct env width height history).raised = none →
      Reachable env (construct env width height history).state
  | addImage (fileLocation : String) {s : State} :
      Reachable env s → Reachable env (addImage env fileLocation s)
  | refresh (sprites : List Sprite) (text : String) {s : State} :
      Reachable env s → Reachable env (refresh env sprites text s).state
  | clearBackground {s : State} :
      Reachable env s → Reachable env (clearBackground env s).state
  | close {s : State} :
      Reachable env s → Reachable env (close s)

/-! ## Concrete environments and states used by the examples -/

/-- An environment in which every native call succeeds; the pointer returned
by a call is the length of the history, so each handle is fresh. -/
def envOk : Env :=
  { status := fun _ => 0, pointer := fun history => some history.length,
    error := fun _ => "no error" }

/-- An environment that differs from `envOk` in that `TTF_Init` returns -1. -/
def envTtfInitFails : Env :=
  { status := fun history =>
      if history.getLast? = some NativeCall.TTF_Init then -1 else 0,
    pointer := fun history => some history.length,
    error := fun _ => "no font support" }

/-- An environment that differs from `envOk` in that `TTF_OpenFont` returns
`nullptr`. -/
def envOpenFontFails : Env :=
  { status := fun _ => 0,
    pointer := fun history =>
      if history.getLast? = some (NativeCall.TTF_OpenFont "graphics/rubber-biscuit.bold.ttf" 32)
      then none else some history.length,
    error := fun _ => "no such font" }

/-- An environment that differs from `envOk` in that `IMG_Load` fails on the
path "missing.png". -/
def envMissingFile : Env :=
  { status := fun _ => 0,
    pointer := fun history =>
      if history.getLast? = some (NativeCall.IMG_Load "missing.png")
      then none else some history.length,
    error := fun _ => "no such file" }

/-- The display constructed by `Display(800, 600)` under `envOk`. -/
def readyDisplay : State := (construct envOk 800 600 []).state

/-- The display `readyDisplay` after `addImage("valid.png")`. -/
def oneImageDisplay : State := addImage envOk "valid.png" readyDisplay

/-! ## Lemmas on the member functions -/

theorem issued_append (s t : State) (l : List NativeCall) (h : t.calls = s.calls ++ l) :
    issued s t = l := by
  simp [issued, h]

theorem addImage_count (env : Env) (f : String) (s : State) :
    getImageCount (addImage env f s)
      = getImageCount s + (if loadSucceeds env f s then 1 else 0) := by
  unfold addImage loadSucceeds decodeFails conversionFails getImageCount
  cases hr : s.display.renderer_ with
  | none => simp
  | some r =>
    dsimp only
    cases h1 : env.pointer (s.calls ++ [NativeCall.IMG_Load f]) with
    | none => simp
    | some surf =>
      dsimp only
      cases h2 : env.pointer (s.calls ++ [NativeCall.IMG_Load f] ++
          [NativeCall.SDL_CreateTextureFromSurface (some r) (some surf)]) with
      | none => simp
      | some tex => simp

theorem addImage_of_failure (env : Env) (f : String) (s : State)
    (h : decodeFails env f s = true ∨ conversionFails env f s = true) :
    (addImage env f s).display = s.display := by
  unfold addImage
  cases hr : s.display.renderer_ with
  | none => rfl
  | some r =>
    dsimp only
    cases h1 : env.pointer (s.calls ++ [NativeCall.IMG_Load f]) with
    | none => rfl
    | some surf =>
      dsimp only
      cases h2 : env.pointer (s.calls ++ [NativeCall.IMG_Load f] ++
          [NativeCall.SDL_CreateTextureFromSurface (some r) (some surf)]) with
      | none => rfl
      | some tex =>
        exfalso
        rcases h with h | h
        · simp [decodeFails, h1] at h
        · simp [conversionFails, h1, hr] at h
          simp [h] at h2

theorem addImages_count (env : Env) (files : List String) :
    ∀ s : State, getImageCount (addImages env files s)
      = getImageCount s + successes env files s := by
  induction files with
  | nil => intro s; simp [addImages, successes]
  | cons f rest ih =>
    intro s
    simp only [addImages, successes]
    rw [ih, addImage_count]
    omega

theorem mem_destroyImages (c : NativeCall) :
    ∀ images : List Ptr, c ∈ destroyImages images →
      ∃ t, c = NativeCall.SDL_DestroyTexture (some t) := by
  intro images
  induction images with
  | nil => intro h; simp [destroyImages] at h
  | cons e rest ih =>
    intro h
    cases e with
    | none => exact ih (by simpa [destroyImages] using h)
    | some t =>
      simp only [destroyImages, List.mem_cons] at h
      rcases h with h | h
      · exact ⟨t, h⟩
      · exact ih h

theorem mem_closeCalls (c : NativeCall) (d : Display) (h : c ∈ closeCalls d) :
    (∃ t, c = NativeCall.SDL_DestroyTexture (some t))
      ∨ (∃ r, c = NativeCall.SDL_DestroyRenderer (some r))
      ∨ (∃ w, c = NativeCall.SDL_DestroyWindow (some w))
      ∨ (∃ f, c = NativeCall.TTF_CloseFont (some f))
      ∨ c = NativeCall.TTF_Quit ∨ c = NativeCall.SDL_Quit := by
  unfold closeCalls at h
  simp only [List.mem_append, List.mem_singleton] at h
  rcases h with (((h | h) | h) | h) | h
  · exact Or.inl (mem_destroyImages c _ h)
  · cases hr : d.renderer_ with
    | none => simp [hr] at h
    | some r => simp [hr] at h; exact Or.inr (Or.inl ⟨r, h⟩)
  · cases hw : d.window_ with
    | none => simp [hw] at h
    | some w => simp [hw] at h; exact Or.inr (Or.inr (Or.inl ⟨w, h⟩))
  · cases hf : d.font_ with
    | none => simp [hf] at h
    | some f =>
      simp [hf] at h
      rcases h with h | h
      · exact Or.inr (Or.inr (Or.inr (Or.inl ⟨f, h⟩)))
      · exact Or.inr (Or.inr (Or.inr (Or.inr (Or.inl h))))
  · exact Or.inr (Or.inr (Or.inr (Or.inr (Or.inr h))))

theorem closeCalls_not_isBlit (d : Display) :
    ∀ c ∈ closeCalls d, isBlit c = false := by
  intro c h
  rcases mem_closeCalls c d h with ⟨t, rfl⟩ | ⟨r, rfl⟩ | ⟨w, rfl⟩ | ⟨f, rfl⟩ | rfl | rfl <;> rfl

theorem closeCalls_not_isPresent (d : Display) :
    ∀ c ∈ closeCalls d, isPresent c = false := by
  intro c h
  rcases mem_closeCalls c d h with ⟨t, rfl⟩ | ⟨r, rfl⟩ | ⟨w, rfl⟩ | ⟨f, rfl⟩ | rfl | rfl <;> rfl

theorem closeCalls_closed (d : Display) :
    closeCalls { d with images_ := [], renderer_ := none, window_ := none }
      = (match d.font_ with
         | some f => [NativeCall.TTF_CloseFont (some f), NativeCall.TTF_Quit]
         | none => []) ++ [NativeCall.SDL_Quit] := by
  simp [closeCalls, destroyImages]

theorem isBlit_specBlit (d : Display) (sprite : Sprite) : isBlit (specBlit d sprite) = true := rfl

theorem filter_isBlit_map_specBlit (d : Display) (l : List Sprite) :
    (l.map (specBlit d)).filter isBlit = l.map (specBlit d) := by
  induction l with
  | nil => rfl
  | cons a rest ih => simp [List.filter, isBlit_specBlit, ih]

theorem filter_eq_nil_of_forall_false (p : NativeCall → Bool) (l : List NativeCall)
    (h : ∀ c ∈ l, p c = false) : l.filter p = [] := by
  rw [List.filter_eq_nil_iff]
  intro c hc
  simp [h c hc]

/-- The loop over the sprites issues the blits of an initial segment of the
sprites and then either returns or tears the display down and throws. -/
theorem drawSprites_trace (env : Env) (sprites : List Sprite) :
    ∀ s : State, ∃ k rest,
      (drawSprites env sprites s).state.calls
          = s.calls ++ (sprites.take k).map (specBlit s.display) ++ rest
        ∧ (∀ sp ∈ sprites.take k, sp.getImageIndex < s.display.images_.length
            ∧ s.display.images_.getD sp.getImageIndex none ≠ none)
        ∧ (((drawSprites env sprites s).raised = none ∧ rest = []
              ∧ sprites.take k = sprites
              ∧ (drawSprites env sprites s).state.display = s.display)
            ∨ ((drawSprites env sprites s).raised ≠ none ∧ rest = closeCalls s.display
              ∧ (drawSprites env sprites s).state.display = (close s).display)) := by
  induction sprites with
  | nil =>
    intro s
    exact ⟨0, [], by simp [drawSprites], by simp, Or.inl ⟨rfl, rfl, rfl, rfl⟩⟩
  | cons sp rest ih =>
    intro s
    unfold drawSprites
    dsimp only
    by_cases hlt : sp.getImageIndex < s.display.images_.length
    · rw [if_pos hlt]
      cases hget : s.display.images_.getD sp.getImageIndex none with
      | none =>
        exact ⟨0, closeCalls s.display, by simp [close], by simp,
          Or.inr ⟨by simp, rfl, rfl⟩⟩
      | some tex =>
        dsimp only
        have hblit : NativeCall.SDL_RenderCopyEx s.display.renderer_ (some tex) none
            (some (destination sp)) 0 none
            (if (!sp.getDirection) = true then SDL_RendererFlip.SDL_FLIP_HORIZONTAL
              else SDL_RendererFlip.SDL_FLIP_NONE) = specBlit s.display sp := by
          unfold specBlit destination
          rw [hget]
          cases sp.getDirection <;> rfl
        rw [hblit]
        split
        · refine ⟨1, closeCalls s.display, by simp [closeAndThrow, close], ?_,
            Or.inr ⟨by simp [closeAndThrow], rfl, rfl⟩⟩
          intro x hx
          simp at hx
          subst hx
          exact ⟨hlt, by rw [hget]; exact Option.some_ne_none _⟩
        · obtain ⟨k, tl, h1, h2, h3⟩ :=
            ih { s with calls := s.calls ++ [specBlit s.display sp] }
          refine ⟨k + 1, tl, by simp [h1], ?_, ?_⟩
          · intro x hx
            simp only [List.take_succ_cons, List.mem_cons] at hx
            rcases hx with rfl | hx
            · exact ⟨hlt, by rw [hget]; exact Option.some_ne_none _⟩
            · exact h2 x hx
          · rcases h3 with ⟨a, b, c, d⟩ | ⟨a, b, c⟩
            · exact Or.inl ⟨a, b, by simp [c], d⟩
            · exact Or.inr ⟨a, b, c⟩
    · rw [if_neg hlt]
      exact ⟨0, closeCalls s.display, by simp [close], by simp,
        Or.inr ⟨by simp, rfl, rfl⟩⟩

theorem append_ne_of_head_ne (a b x y : String) (c d : Char) (ta tb : List Char)
    (ha : a.data = c :: ta) (hb : b.data = d :: tb) (hcd : c ≠ d) : a ++ x ≠ b ++ y := by
  intro h
  have h2 := congrArg String.data h
  rw [String.data_append, String.data_append, ha, hb] at h2
  simp at h2
  exact hcd h2.1

theorem close_display_congr (s t : State) (h : t.display = s.display) :
    (close t).display = (close s).display := by
  simp [close, h]

/-- The two outcomes of `clearBackground` on a present renderer, and the one on
an absent renderer. -/
theorem clearBackground_trace (env : Env) (s : State) :
    ∃ l, (clearBackground env s).state.calls = s.calls ++ l
      ∧ (∀ c ∈ l, isBlit c = false)
      ∧ (((clearBackground env s).raised = none
            ∧ (clearBackground env s).state.display = s.display)
          ∨ ((∃ e, (clearBackground env s).raised
                = some ("Unable to set the background color due to: " ++ e))
            ∧ (clearBackground env s).state.display = (close s).display)) := by
  unfold clearBackground
  cases hr : s.display.renderer_ with
  | none => exact ⟨[], by simp, by simp, Or.inl ⟨rfl, rfl⟩⟩
  | some r =>
    dsimp only
    split
    · refine ⟨[NativeCall.SDL_SetRenderDrawColor (some r) 255 255 255 255]
          ++ closeCalls s.display, by simp [closeAndThrow, close], ?_,
          Or.inr ⟨⟨_, rfl⟩, rfl⟩⟩
      intro c hc
      simp only [List.mem_append, List.mem_singleton] at hc
      rcases hc with rfl | hc
      · rfl
      · exact closeCalls_not_isBlit _ c hc
    · split
      · refine ⟨[NativeCall.SDL_SetRenderDrawColor (some r) 255 255 255 255,
            NativeCall.SDL_RenderClear (some r)] ++ closeCalls s.display,
            by simp [closeAndThrow, close], ?_, Or.inr ⟨⟨_, rfl⟩, rfl⟩⟩
        intro c hc
        simp only [List.mem_append, List.mem_cons, List.mem_singleton, List.not_mem_nil,
          or_false] at hc
        rcases hc with (rfl | rfl) | hc
        · rfl
        · rfl
        · exact closeCalls_not_isBlit _ c hc
      · refine ⟨[NativeCall.SDL_SetRenderDrawColor (some r) 255 255 255 255,
            NativeCall.SDL_RenderClear (some r)], by simp, ?_, Or.inl ⟨rfl, rfl⟩⟩
        intro c hc
        simp only [List.mem_cons, List.mem_singleton, List.not_mem_nil, or_false] at hc
        rcases hc with rfl | rfl <;> rfl

/-- When no clear call fails, `clearBackground` on a present renderer sets the
draw colour to opaque white, clears, and returns. -/
theorem drawCallsSucceed_extend (env : Env) (before l : List NativeCall)
    (h : DrawCallsSucceed env before) : DrawCallsSucceed env (before ++ l) := by
  intro later c hc
  have h2 := h (l ++ later) c hc
  rw [← List.append_assoc] at h2
  exact h2

theorem clearBackground_ok (env : Env) (s : State) (r : Handle)
    (hok : DrawCallsSucceed env s.calls) (hr : s.display.renderer_ = some r) :
    clearBackground env s
      = { state := { s with calls := s.calls ++
            [NativeCall.SDL_SetRenderDrawColor (some r) 255 255 255 255,
             NativeCall.SDL_RenderClear (some r)] },
          raised := none } := by
  unfold clearBackground
  rw [hr]
  dsimp only
  have h1 := hok [] (NativeCall.SDL_SetRenderDrawColor (some r) 255 255 255 255) rfl
  rw [List.append_nil] at h1
  have h2 := hok [NativeCall.SDL_SetRenderDrawColor (some r) 255 255 255 255]
    (NativeCall.SDL_RenderClear (some r)) rfl
  rw [if_neg (by simp [h1]), if_neg (by rw [h2]; simp)]
  simp

theorem getD_ne_none (d : Display) (h : RegistryPresent d) (i : Nat)
    (hi : i < d.images_.length) : d.images_.getD i none ≠ none := by
  rw [List.getD_eq_getElem _ _ hi]
  exact h _ (List.getElem_mem hi)

/-- When no blit fails, every index is in range and every entry is present,
the loop blits every sprite in order and returns. -/
theorem drawSprites_ok (env : Env) (sprites : List Sprite) :
    ∀ s : State, DrawCallsSucceed env s.calls → RegistryPresent s.display →
      (∀ sp ∈ sprites, sp.getImageIndex < s.display.images_.length) →
      drawSprites env sprites s
        = { state := { s with calls := s.calls ++ sprites.map (specBlit s.display) },
            raised := none } := by
  induction sprites with
  | nil => intro s _ _ _; simp [drawSprites]
  | cons sp rest ih =>
    intro s hok hreg hall
    have hlt : sp.getImageIndex < s.display.images_.length := hall sp (List.mem_cons_self _ _)
    unfold drawSprites
    dsimp only
    rw [if_pos hlt]
    cases hget : s.display.images_.getD sp.getImageIndex none with
    | none => exact absurd hget (getD_ne_none _ hreg _ hlt)
    | some tex =>
      dsimp only
      have hblit : NativeCall.SDL_RenderCopyEx s.display.renderer_ (some tex) none
          (some (destination sp)) 0 none
          (if (!sp.getDirection) = true then SDL_RendererFlip.SDL_FLIP_HORIZONTAL
            else SDL_RendererFlip.SDL_FLIP_NONE) = specBlit s.display sp := by
        unfold specBlit destination
        rw [hget]
        cases sp.getDirection <;> rfl
      rw [hblit]
      have h0 := hok [] (specBlit s.display sp) rfl
      rw [List.append_nil] at h0
      rw [if_neg (by simp [h0])]
      rw [ih { s with calls := s.calls ++ [specBlit s.display sp] }
        (drawCallsSucceed_extend env _ _ hok) hreg
        (fun x hx => hall x (List.mem_cons_of_mem _ hx))]
      simp

/-- The loop on sprites whose first out-of-range index is that of `bad`: the
sprites before `bad` are blitted, then the display is closed and the loop
throws. -/
theorem drawSprites_invalid (env : Env)
    (pre : List Sprite) (bad : Sprite) (post : List Sprite) (s : State)
    (hok : DrawCallsSucceed env s.calls) (hreg : RegistryPresent s.display)
    (hpre : ∀ sp ∈ pre, sp.getImageIndex < s.display.images_.length)
    (hbad : s.display.images_.length ≤ bad.getImageIndex) :
    drawSprites env (pre ++ bad :: post) s
      = { state := close { s with calls := s.calls ++ pre.map (specBlit s.display) },
          raised := some ("Invalid image index " ++ toString bad.getImageIndex) } := by
  induction pre generalizing s with
  | nil =>
    simp only [List.nil_append, List.map_nil, List.append_nil]
    unfold drawSprites
    dsimp only
    rw [if_neg (by omega)]
  | cons sp rest ih =>
    have hlt : sp.getImageIndex < s.display.images_.length := hpre sp (List.mem_cons_self _ _)
    simp only [List.cons_append]
    unfold drawSprites
    dsimp only
    rw [if_pos hlt]
    cases hget : s.display.images_.getD sp.getImageIndex none with
    | none => exact absurd hget (getD_ne_none _ hreg _ hlt)
    | some tex =>
      dsimp only
      have hblit : NativeCall.SDL_RenderCopyEx s.display.renderer_ (some tex) none
          (some (destination sp)) 0 none
          (if (!sp.getDirection) = true then SDL_RendererFlip.SDL_FLIP_HORIZONTAL
            else SDL_RendererFlip.SDL_FLIP_NONE) = specBlit s.display sp := by
        unfold specBlit destination
        rw [hget]
        cases sp.getDirection <;> rfl
      rw [hblit]
      have h0 := hok [] (specBlit s.display sp) rfl
      rw [List.append_nil] at h0
      rw [if_neg (by simp [h0])]
      rw [ih { s with calls := s.calls ++ [specBlit s.display sp] }
        (drawCallsSucceed_extend env _ _ hok) hreg
        (fun x hx => hpre x (List.mem_cons_of_mem _ hx)) hbad]
      simp

/-- On a registry of present handles the loop never takes the branch that
throws "Missing image texture at index". -/
theorem drawSprites_raised (env : Env) (sprites : List Sprite) :
    ∀ s : State, RegistryPresent s.display →
      (drawSprites env sprites s).raised = none
        ∨ (∃ e, (drawSprites env sprites s).raised
              = some ("Unable to render a sprite due to: " ++ e))
        ∨ (∃ e, (drawSprites env sprites s).raised = some ("Invalid image index " ++ e)) := by
  induction sprites with
  | nil => intro s _; exact Or.inl rfl
  | cons sp rest ih =>
    intro s hreg
    unfold drawSprites
    dsimp only
    by_cases hlt : sp.getImageIndex < s.display.images_.length
    · rw [if_pos hlt]
      cases hget : s.display.images_.getD sp.getImageIndex none with
      | none => exact absurd hget (getD_ne_none _ hreg _ hlt)
      | some tex =>
        dsimp only
        by_cases hst : env.status (s.calls ++
            [NativeCall.SDL_RenderCopyEx s.display.renderer_ (some tex) none
              (some (destination sp)) 0 none
              (if (!sp.getDirection) = true then SDL_RendererFlip.SDL_FLIP_HORIZONTAL
                else SDL_RendererFlip.SDL_FLIP_NONE)]) ≠ 0
        · rw [if_pos hst]
          exact Or.inr (Or.inl ⟨_, rfl⟩)
        · rw [if_neg hst]
          exact ih _ hreg
    · rw [if_neg hlt]
      exact Or.inr (Or.inr ⟨_, rfl⟩)

/-- A frame on a present renderer and a registry of present handles, all
indices in range, no clear or blit failing: white clear, the blits, present. -/
theorem renderFrame_ok (env : Env) (sprites : List Sprite)
    (s : State) (r : Handle) (hok : DrawCallsSucceed env s.calls)
    (hr : s.display.renderer_ = some r)
    (hreg : RegistryPresent s.display)
    (hall : ∀ sp ∈ sprites, sp.getImageIndex < s.display.images_.length) :
    renderFrame env sprites s
      = { state := { s with calls := s.calls ++
            ([NativeCall.SDL_SetRenderDrawColor (some r) 255 255 255 255,
              NativeCall.SDL_RenderClear (some r)]
              ++ sprites.map (specBlit s.display)
              ++ [NativeCall.SDL_RenderPresent (some r)]) },
          raised := none } := by
  unfold renderFrame
  rw [clearBackground_ok env s r hok hr]
  dsimp only
  have h := drawSprites_ok env sprites
    ({ display := s.display, calls := s.calls ++
      [NativeCall.SDL_SetRenderDrawColor (some r) 255 255 255 255,
       NativeCall.SDL_RenderClear (some r)] } : State)
    (drawCallsSucceed_extend env _ _ hok) hreg hall
  rw [h]
  simp [hr]

/-- A frame whose first out-of-range sprite is `bad`. -/
theorem renderFrame_invalid (env : Env)
    (pre : List Sprite) (bad : Sprite) (post : List Sprite)
    (s : State) (r : Handle) (hok : DrawCallsSucceed env s.calls)
    (hr : s.display.renderer_ = some r)
    (hreg : RegistryPresent s.display)
    (hpre : ∀ sp ∈ pre, sp.getImageIndex < s.display.images_.length)
    (hbad : s.display.images_.length ≤ bad.getImageIndex) :
    renderFrame env (pre ++ bad :: post) s
      = { state := close { s with calls := s.calls ++
            ([NativeCall.SDL_SetRenderDrawColor (some r) 255 255 255 255,
              NativeCall.SDL_RenderClear (some r)]
              ++ pre.map (specBlit s.display)) },
          raised := some ("Invalid image index " ++ toString bad.getImageIndex) } := by
  unfold renderFrame
  rw [clearBackground_ok env s r hok hr]
  dsimp only
  have h := drawSprites_invalid env pre bad post
    ({ display := s.display, calls := s.calls ++
      [NativeCall.SDL_SetRenderDrawColor (some r) 255 255 255 255,
       NativeCall.SDL_RenderClear (some r)] } : State)
    (drawCallsSucceed_extend env _ _ hok) hreg hpre hbad
  rw [h]
  simp

theorem refresh_invalid (env : Env)
    (pre : List Sprite) (bad : Sprite) (post : List Sprite) (text : String)
    (s : State) (r : Handle) (hok : DrawCallsSucceed env s.calls)
    (hr : s.display.renderer_ = some r)
    (hreg : RegistryPresent s.display)
    (hpre : ∀ sp ∈ pre, sp.getImageIndex < s.display.images_.length)
    (hbad : s.display.images_.length ≤ bad.getImageIndex) :
    refresh env (pre ++ bad :: post) text s
      = { state := close { s with calls := s.calls ++
            ([NativeCall.SDL_SetRenderDrawColor (some r) 255 255 255 255,
              NativeCall.SDL_RenderClear (some r)]
              ++ pre.map (specBlit s.display)) },
          raised := some ("Invalid image index " ++ toString bad.getImageIndex) } := by
  unfold refresh
  rw [hr]
  dsimp only
  rw [renderFrame_invalid env pre bad post s r hok hr hreg hpre hbad]

theorem refresh_ok (env : Env) (sprites : List Sprite)
    (text : String) (s : State) (r : Handle) (hok : DrawCallsSucceed env s.calls)
    (hr : s.display.renderer_ = some r)
    (hreg : RegistryPresent s.display)
    (hall : ∀ sp ∈ sprites, sp.getImageIndex < s.display.images_.length) :
    refresh env sprites text s
      = { state := { s with calls := s.calls ++
            ([NativeCall.SDL_SetRenderDrawColor (some r) 255 255 255 255,
              NativeCall.SDL_RenderClear (some r)]
              ++ sprites.map (specBlit s.display)
              ++ [NativeCall.SDL_RenderPresent (some r)]
              ++ (match s.display.font_ with
                  | some f => [NativeCall.TTF_RenderText_Solid (some f) text
                      { r := 0, g := 0, b := 0, a := 0 }]
                  | none => [])) },
          raised := none } := by
  unfold refresh
  rw [hr]
  dsimp only
  rw [renderFrame_ok env sprites s r hok hr hreg hall]
  dsimp only
  cases s.display.font_ <;> simp

/-- What `renderFrame` leaves: the blits of an initial segment of the sprites
between calls that are not blits; the members unchanged when it returns and
those of the closed object when it throws. -/
theorem renderFrame_trace (env : Env) (sprites : List Sprite) (s : State) :
    ∃ k a b, (renderFrame env sprites s).state.calls
        = s.calls ++ (a ++ (sprites.take k).map (specBlit s.display) ++ b)
      ∧ (∀ c ∈ a, isBlit c = false) ∧ (∀ c ∈ b, isBlit c = false)
      ∧ (∀ sp ∈ sprites.take k, sp.getImageIndex < s.display.images_.length
            ∧ s.display.images_.getD sp.getImageIndex none ≠ none)
      ∧ (((renderFrame env sprites s).raised = none
            ∧ (renderFrame env sprites s).state.display = s.display)
          ∨ ((renderFrame env sprites s).raised ≠ none
            ∧ (renderFrame env sprites s).state.display = (close s).display)) := by
  obtain ⟨a, ha, hab, hcb⟩ := clearBackground_trace env s
  unfold renderFrame
  dsimp only
  rcases hcb with ⟨hnone, hdisp⟩ | ⟨⟨e, hsome⟩, hdisp⟩
  · rw [hnone]
    dsimp only
    obtain ⟨k, rest, h1, h2, h3⟩ := drawSprites_trace env sprites (clearBackground env s).state
    rw [hdisp] at h1 h2 h3
    rcases h3 with ⟨hn, hrest, _, hd⟩ | ⟨hn, hrest, hd⟩
    · rw [hn]
      dsimp only
      refine ⟨k, a, [NativeCall.SDL_RenderPresent
          (drawSprites env sprites (clearBackground env s).state).state.display.renderer_],
        ?_, hab, ?_, h2, Or.inl ⟨rfl, hd⟩⟩
      · rw [h1, ha, hrest]; simp
      · intro c hc
        simp only [List.mem_singleton] at hc
        subst hc
        rfl
    · cases hraised : (drawSprites env sprites (clearBackground env s).state).raised with
      | none => exact absurd hraised hn
      | some e =>
        dsimp only
        refine ⟨k, a, closeCalls s.display, ?_, hab, closeCalls_not_isBlit _, h2,
          Or.inr ⟨by simp, ?_⟩⟩
        · rw [h1, ha, hrest]; simp
        · rw [hd]; exact close_display_congr _ _ hdisp
  · rw [hsome]
    dsimp only
    exact ⟨0, a, [], by rw [ha]; simp, hab, by simp, by simp, Or.inr ⟨by simp, hdisp⟩⟩

/-- What `refresh` leaves, in the same terms as `renderFrame_trace`. -/
theorem refresh_trace (env : Env) (sprites : List Sprite) (text : String) (s : State) :
    ∃ k a b, (refresh env sprites text s).state.calls
        = s.calls ++ (a ++ (sprites.take k).map (specBlit s.display) ++ b)
      ∧ (∀ c ∈ a, isBlit c = false) ∧ (∀ c ∈ b, isBlit c = false)
      ∧ (∀ sp ∈ sprites.take k, sp.getImageIndex < s.display.images_.length
            ∧ s.display.images_.getD sp.getImageIndex none ≠ none)
      ∧ (((refresh env sprites text s).raised = none
            ∧ (refresh env sprites text s).state.display = s.display)
          ∨ ((refresh env sprites text s).raised ≠ none
            ∧ (refresh env sprites text s).state.display = (close s).display)) := by
  have key : ∀ o : Outcome,
      (∃ k a b, o.state.calls = s.calls ++ (a ++ (sprites.take k).map (specBlit s.display) ++ b)
        ∧ (∀ c ∈ a, isBlit c = false) ∧ (∀ c ∈ b, isBlit c = false)
        ∧ (∀ sp ∈ sprites.take k, sp.getImageIndex < s.display.images_.length
              ∧ s.display.images_.getD sp.getImageIndex none ≠ none)
        ∧ ((o.raised = none ∧ o.state.display = s.display)
            ∨ (o.raised ≠ none ∧ o.state.display = (close s).display))) →
      refresh env sprites text s
        = (match o.raised with
           | some e => { state := o.state, raised := some e }
           | none =>
             match o.state.display.font_ with
             | some f =>
               { state := { o.state with calls := o.state.calls ++
                   [NativeCall.TTF_RenderText_Solid (some f) text
                     { r := 0, g := 0, b := 0, a := 0 }] },
                 raised := none }
             | none => { state := o.state, raised := none }) →
      ∃ k a b, (refresh env sprites text s).state.calls
          = s.calls ++ (a ++ (sprites.take k).map (specBlit s.display) ++ b)
        ∧ (∀ c ∈ a, isBlit c = false) ∧ (∀ c ∈ b, isBlit c = false)
        ∧ (∀ sp ∈ sprites.take k, sp.getImageIndex < s.display.images_.length
              ∧ s.display.images_.getD sp.getImageIndex none ≠ none)
        ∧ (((refresh env sprites text s).raised = none
              ∧ (refresh env sprites text s).state.display = s.display)
            ∨ ((refresh env sprites text s).raised ≠ none
              ∧ (refresh env sprites text s).state.display = (close s).display)) := by
    intro o ⟨k, a, b, h1, ha, hb, h2, h3⟩ heq
    rw [heq]
    cases hraised : o.raised with
    | some e =>
      dsimp only
      rcases h3 with ⟨hn, _⟩ | ⟨_, hd⟩
      · rw [hraised] at hn; cases hn
      · exact ⟨k, a, b, h1, ha, hb, h2, Or.inr ⟨by simp, hd⟩⟩
    | none =>
      dsimp only
      rcases h3 with ⟨_, hd⟩ | ⟨hn, _⟩
      · cases hf : o.state.display.font_ with
        | none => exact ⟨k, a, b, h1, ha, hb, h2, Or.inl ⟨rfl, hd⟩⟩
        | some f =>
          dsimp only
          refine ⟨k, a, b ++ [NativeCall.TTF_RenderText_Solid (some f) text
            { r := 0, g := 0, b := 0, a := 0 }], by rw [h1]; simp, ha, ?_, h2,
            Or.inl ⟨rfl, hd⟩⟩
          intro c hc
          simp only [List.mem_append, List.mem_singleton] at hc
          rcases hc with hc | rfl
          · exact hb c hc
          · rfl
      · exact absurd hraised hn
  cases hr : s.display.renderer_ with
  | some r =>
    apply key (renderFrame env sprites s) (renderFrame_trace env sprites s)
    unfold refresh
    rw [hr]
  | none =>
    apply key { state := s, raised := none }
      ⟨0, [], [], by simp, by simp, by simp, by simp, Or.inl ⟨rfl, rfl⟩⟩
    unfold refresh
    rw [hr]

/-- A constructor that returns leaves an empty registry and present window,
renderer and font handles. -/
theorem construct_ok (env : Env) (width height : Int) (history : List NativeCall)
    (h : (construct env width height history).raised = none) :
    (construct env width height history).state.display.images_ = []
      ∧ (construct env width height history).state.display.window_ ≠ none
      ∧ (construct env width height history).state.display.renderer_ ≠ none
      ∧ (construct env width height history).state.display.font_ ≠ none := by
  unfold construct at h ⊢
  dsimp only at h ⊢
  split at h
  · simp at h
  · rename_i h0
    rw [if_neg h0]
    cases hw : env.pointer (history ++ [NativeCall.SDL_Init]
        ++ [NativeCall.SDL_CreateWindow "Display" width height]) with
    | none => rw [hw] at h; simp [closeAndThrow] at h
    | some w =>
      rw [hw] at h
      dsimp only at h ⊢
      cases hr : env.pointer (history ++ [NativeCall.SDL_Init]
          ++ [NativeCall.SDL_CreateWindow "Display" width height]
          ++ [NativeCall.SDL_CreateRenderer (some w)]) with
      | none => rw [hr] at h; simp [closeAndThrow] at h
      | some r =>
        rw [hr] at h
        dsimp only at h ⊢
        split at h
        · simp at h
        · rename_i h3
          rw [if_neg h3]
          cases hf : env.pointer (history ++ [NativeCall.SDL_Init]
              ++ [NativeCall.SDL_CreateWindow "Display" width height]
              ++ [NativeCall.SDL_CreateRenderer (some w)] ++ [NativeCall.TTF_Init]
              ++ [NativeCall.TTF_OpenFont "graphics/rubber-biscuit.bold.ttf" 32]) with
          | none => rw [hf] at h; simp [closeAndThrow] at h
          | some f =>
            rw [hf] at h
            dsimp only at h ⊢
            obtain ⟨l, _, _, hc⟩ := clearBackground_trace env
              ({ display := { width_ := width, height_ := height, window_ := some w,
                              renderer_ := some r, font_ := some f, images_ := [] },
                 calls := history ++ [NativeCall.SDL_Init]
                  ++ [NativeCall.SDL_CreateWindow "Display" width height]
                  ++ [NativeCall.SDL_CreateRenderer (some w)] ++ [NativeCall.TTF_Init]
                  ++ [NativeCall.TTF_OpenFont "graphics/rubber-biscuit.bold.ttf" 32] } : State)
            rcases hc with ⟨_, hd⟩ | ⟨⟨e, he⟩, _⟩
            · rw [hd]; simp
            · rw [he] at h; simp at h

theorem registryPresent_nil (d : Display) (h : d.images_ = []) : RegistryPresent d := by
  intro e he
  rw [h] at he
  simp at he

theorem registryPresent_close (s : State) : RegistryPresent (close s).display :=
  registryPresent_nil _ rfl

theorem registryPresent_addImage (env : Env) (f : String) (s : State)
    (h : RegistryPresent s.display) : RegistryPresent (addImage env f s).display := by
  unfold addImage
  cases hr : s.display.renderer_ with
  | none => exact h
  | some r =>
    dsimp only
    cases h1 : env.pointer (s.calls ++ [NativeCall.IMG_Load f]) with
    | none => exact h
    | some surf =>
      dsimp only
      cases h2 : env.pointer (s.calls ++ [NativeCall.IMG_Load f] ++
          [NativeCall.SDL_CreateTextureFromSurface (some r) (some surf)]) with
      | none => exact h
      | some tex =>
        intro e he
        simp only [List.mem_append, List.mem_singleton] at he
        rcases he with he | rfl
        · exact h e he
        · exact Option.some_ne_none _

/-- The registry of every display state holds present handles only. -/
theorem reachable_registryPresent (env : Env) (s : State) (h : Reachable env s) :
    RegistryPresent s.display := by
  induction h with
  | constructed width height history hc =>
    exact registryPresent_nil _ (construct_ok env width height history hc).1
  | addImage f _ ih => exact registryPresent_addImage env f _ ih
  | refresh sprites text _ ih =>
    obtain ⟨_, _, _, _, _, _, _, h | h⟩ := refresh_trace env sprites text _
    · rw [h.2]; exact ih
    · rw [h.2]; exact registryPresent_close _
  | clearBackground _ ih =>
    obtain ⟨_, _, _, h | h⟩ := clearBackground_trace env _
    · rw [h.2]; exact ih
    · rw [h.2]; exact registryPresent_close _
  | close _ _ => exact registryPresent_close _

/-- The texts that `refresh` can throw on a registry of present handles. -/
theorem refresh_raised (env : Env) (sprites : List Sprite) (text : String) (s : State)
    (hreg : RegistryPresent s.display) :
    (refresh env sprites text s).raised = none
      ∨ (∃ e, (refresh env sprites text s).raised
            = some ("Unable to set the background color due to: " ++ e))
      ∨ (∃ e, (refresh env sprites text s).raised
            = some ("Unable to render a sprite due to: " ++ e))
      ∨ (∃ e, (refresh env sprites text s).raised = some ("Invalid image index " ++ e)) := by
  unfold refresh
  cases hr : s.display.renderer_ with
  | none =>
    dsimp only
    cases s.display.font_ <;> exact Or.inl rfl
  | some r =>
    dsimp only
    unfold renderFrame
    dsimp only
    obtain ⟨_, _, _, hc⟩ := clearBackground_trace env s
    rcases hc with ⟨hn, hd⟩ | ⟨⟨e, he⟩, _⟩
    · rw [hn]
      dsimp only
      have hreg2 : RegistryPresent (clearBackground env s).state.display := by rw [hd]; exact hreg
      rcases drawSprites_raised env sprites _ hreg2 with h | ⟨e, h⟩ | ⟨e, h⟩
      · rw [h]
        dsimp only
        cases (drawSprites env sprites (clearBackground env s).state).state.display.font_ <;>
          exact Or.inl rfl
      · rw [h]; exact Or.inr (Or.inr (Or.inl ⟨e, rfl⟩))
      · rw [h]; exact Or.inr (Or.inr (Or.inr ⟨e, rfl⟩))
    · rw [he]; exact Or.inr (Or.inl ⟨e, rfl⟩)

theorem filter_onRenderTarget_map_specBlit (d : Display) (l : List Sprite) :
    (l.map (specBlit d)).filter onRenderTarget = l.map (specBlit d) := by
  induction l with
  | nil => rfl
  | cons a rest ih =>
    have h : onRenderTarget (specBlit d a) = true := rfl
    simp [List.filter, h, ih]

theorem filter_isPresent_map_specBlit (d : Display) (l : List Sprite) :
    (l.map (specBlit d)).filter isPresent = [] := by
  induction l with
  | nil => rfl
  | cons a rest ih =>
    have h : isPresent (specBlit d a) = false := rfl
    simp [List.filter, h, ih]

theorem reachable_readyDisplay : Reachable envOk readyDisplay :=
  Reachable.constructed 800 600 [] (by decide)

theorem reachable_oneImageDisplay : Reachable envOk oneImageDisplay :=
  Reachable.addImage "valid.png" reachable_readyDisplay

theorem drawCallsSucceed_envOk (before : List NativeCall) : DrawCallsSucceed envOk before :=
  fun _ _ _ => rfl

/-! ## The claims -/

/-- C1: for every display whose render target is present and every finite
sequence of `addImage` calls, `getImageCount()` after the sequence is its value
before the sequence plus the number of calls that succeeded; from a freshly
constructed display it is exactly that number, wherever the failed loads fall
in the sequence. -/
theorem getImageCount_after_addImages (env : Env) (files : List String) :
    (∀ s : State, s.display.renderer_ ≠ none →
        getImageCount (addImages env files s) = getImageCount s + successes env files s)
      ∧ (∀ (width height : Int) (history : List NativeCall),
          (construct env width height history).raised = none →
          getImageCount (addImages env files (construct env width height history).state)
            = successes env files (construct env width height history).state) := by
  refine ⟨fun s _ => addImages_count env files s, ?_⟩
  intro width height history h
  rw [addImages_count]
  simp [getImageCount, (construct_ok env width height history h).1]

/-- Witness of C1: three loads on a fresh display, the second of which fails at
decoding, leave a count of 2. -/
theorem getImageCount_after_addImages_witness :
    (construct envMissingFile 800 600 []).raised = none
      ∧ successes envMissingFile ["valid.png", "missing.png", "other.png"]
          (construct envMissingFile 800 600 []).state = 2
      ∧ getImageCount (addImages envMissingFile ["valid.png", "missing.png", "other.png"]
          (construct envMissingFile 800 600 []).state)
        = successes envMissingFile ["valid.png", "missing.png", "other.png"]
            (construct envMissingFile 800 600 []).state :=
  ⟨by decide, by decide,
    (getImageCount_after_addImages envMissingFile ["valid.png", "missing.png", "other.png"]).2
      800 600 [] (by decide)⟩

/-- C2: for every display state and every path, an `addImage` call whose
decoding fails or whose texture conversion fails leaves the members of the
display unchanged: the same registry (the same handles at the same indices) and
the same window, renderer and font handles.  (`addImage` is noexcept: its
result is a state, with no raised component.) -/
theorem addImage_failure_is_noop (env : Env) (fileLocation : String) (s : State)
    (h : decodeFails env fileLocation s = true ∨ conversionFails env fileLocation s = true) :
    (addImage env fileLocation s).display = s.display
      ∧ (addImage env fileLocation s).display.images_ = s.display.images_
      ∧ (addImage env fileLocation s).display.window_ = s.display.window_
      ∧ (addImage env fileLocation s).display.renderer_ = s.display.renderer_
      ∧ (addImage env fileLocation s).display.font_ = s.display.font_ := by
  have hd := addImage_of_failure env fileLocation s h
  rw [hd]
  exact ⟨rfl, rfl, rfl, rfl, rfl⟩

/-- Witness of C2: loading "missing.png" after one successful load. -/
theorem addImage_failure_is_noop_witness :
    decodeFails envMissingFile "missing.png" oneImageDisplay = true
      ∧ (addImage envMissingFile "missing.png" oneImageDisplay).display
          = oneImageDisplay.display :=
  ⟨by decide,
    (addImage_failure_is_noop envMissingFile "missing.png" oneImageDisplay
      (Or.inl (by decide))).1⟩

/-- C3: on a display with a present renderer, when no clear or blit call fails
and `bad` is the first sprite whose image index is not below the registry size,
`refresh` throws "Invalid image index" followed by the index of `bad`; at the
throw the renderer and the window are absent; the calls made are the white
clear, one blit per sprite before `bad` in order, and the calls of the
teardown; neither `bad` nor a later sprite is blitted and nothing is
presented. -/
theorem refresh_invalid_index (env : Env) (s : State) (r : Handle)
    (pre : List Sprite) (bad : Sprite) (post : List Sprite) (text : String)
    (hreach : Reachable env s) (hr : s.display.renderer_ = some r)
    (hok : DrawCallsSucceed env s.calls)
    (hpre : ∀ sp ∈ pre, sp.getImageIndex < getImageCount s)
    (hbad : getImageCount s ≤ bad.getImageIndex) :
    (refresh env (pre ++ bad :: post) text s).raised
        = some ("Invalid image index " ++ toString bad.getImageIndex)
      ∧ (refresh env (pre ++ bad :: post) text s).state.display.renderer_ = none
      ∧ (refresh env (pre ++ bad :: post) text s).state.display.window_ = none
      ∧ issued s (refresh env (pre ++ bad :: post) text s).state
          = [NativeCall.SDL_SetRenderDrawColor (some r) 255 255 255 255,
             NativeCall.SDL_RenderClear (some r)]
            ++ pre.map (specBlit s.display) ++ closeCalls s.display
      ∧ (issued s (refresh env (pre ++ bad :: post) text s).state).filter isBlit
          = pre.map (specBlit s.display)
      ∧ (issued s (refresh env (pre ++ bad :: post) text s).state).filter isPresent = [] := by
  have hreg := reachable_registryPresent env s hreach
  have heq := refresh_invalid env pre bad post text s r hok hr hreg hpre hbad
  have hiss : issued s (refresh env (pre ++ bad :: post) text s).state
      = [NativeCall.SDL_SetRenderDrawColor (some r) 255 255 255 255,
         NativeCall.SDL_RenderClear (some r)]
        ++ pre.map (specBlit s.display) ++ closeCalls s.display := by
    apply issued_append
    rw [heq]
    simp [close]
  refine ⟨by rw [heq], by rw [heq]; rfl, by rw [heq]; rfl, hiss, ?_, ?_⟩
  · rw [hiss, List.filter_append, List.filter_append, filter_isBlit_map_specBlit,
      filter_eq_nil_of_forall_false isBlit _ (closeCalls_not_isBlit s.display)]
    simp [isBlit]
  · rw [hiss, List.filter_append, List.filter_append, filter_isPresent_map_specBlit,
      filter_eq_nil_of_forall_false isPresent _ (closeCalls_not_isPresent s.display)]
    simp [isPresent]

/-- Witness of C3: one image loaded, a valid sprite followed by a sprite of
image index 5. -/
theorem refresh_invalid_index_witness :
    Reachable envOk oneImageDisplay
      ∧ oneImageDisplay.display.renderer_ = some 3
      ∧ getImageCount oneImageDisplay ≤ 5
      ∧ (refresh envOk ([⟨10, 20, 32, 32, 0, false⟩] ++ ⟨0, 0, 8, 8, 5, true⟩ :: []) ""
          oneImageDisplay).raised = some ("Invalid image index " ++ toString 5) :=
  ⟨reachable_oneImageDisplay, by decide, by decide,
    (refresh_invalid_index envOk oneImageDisplay 3 [⟨10, 20, 32, 32, 0, false⟩]
      ⟨0, 0, 8, 8, 5, true⟩ [] "" reachable_oneImageDisplay (by decide)
      (drawCallsSucceed_envOk _) (by decide) (by decide)).1⟩

/-- C4, as stated, fails: with exactly one image loaded and a sprite of image
index 5, `refresh` throws "Invalid image index 5" and `getImageCount()` is then
0, not the 1 it returned before the call. -/
theorem getImageCount_after_invalid_index_counterexample :
    getImageCount oneImageDisplay = 1
      ∧ (refresh envOk [⟨0, 0, 8, 8, 5, true⟩] "" oneImageDisplay).raised
          = some "Invalid image index 5"
      ∧ getImageCount (refresh envOk [⟨0, 0, 8, 8, 5, true⟩] "" oneImageDisplay).state = 0
      ∧ getImageCount (refresh envOk [⟨0, 0, 8, 8, 5, true⟩] "" oneImageDisplay).state
          ≠ getImageCount oneImageDisplay := by
  decide

/-- C4, amended: after `refresh` has thrown "Invalid image index", the value
returned by `getImageCount()` is 0, because the teardown that precedes the
throw empties the registry; it equals the value returned before the call only
when that value was 0. -/
theorem getImageCount_after_invalid_index (env : Env) (s : State) (sprites : List Sprite)
    (text : String) (i : Nat)
    (hraised : (refresh env sprites text s).raised
      = some ("Invalid image index " ++ toString i)) :
    getImageCount (refresh env sprites text s).state = 0
      ∧ (getImageCount (refresh env sprites text s).state = getImageCount s
          ↔ getImageCount s = 0) := by
  have h0 : getImageCount (refresh env sprites text s).state = 0 := by
    obtain ⟨_, _, _, _, _, _, _, h | h⟩ := refresh_trace env sprites text s
    · rw [hraised] at h; exact absurd h.1 (by simp)
    · simp [getImageCount, h.2, close]
  refine ⟨h0, ?_⟩
  rw [h0]
  exact eq_comm

/-- Witness of the amended C4: one image loaded and a sprite of image index 5. -/
theorem getImageCount_after_invalid_index_witness :
    (refresh envOk [⟨0, 0, 8, 8, 5, true⟩] "" oneImageDisplay).raised
        = some ("Invalid image index " ++ toString 5)
      ∧ getImageCount (refresh envOk [⟨0, 0, 8, 8, 5, true⟩] "" oneImageDisplay).state = 0 :=
  ⟨by decide,
    (getImageCount_after_invalid_index envOk oneImageDisplay [⟨0, 0, 8, 8, 5, true⟩] "" 5
      (by decide)).1⟩

/-- C5, as stated, fails: on the display with one image loaded, the second
`close()` still issues native release calls, the last of them `SDL_Quit`. -/
theorem close_twice_counterexample :
    issued (close oneImageDisplay) (close (close oneImageDisplay)) ≠ []
      ∧ NativeCall.SDL_Quit ∈ issued (close oneImageDisplay) (close (close oneImageDisplay)) := by
  decide

/-- C5, amended: for every display state, after `close()` the window and the
renderer handles are absent and the registry is empty; a second `close()`
leaves the members unchanged, issues no texture, renderer or window destroy
call, and ends with the shutdown of the graphics subsystem (`SDL_Quit`), which
`close` issues on every invocation; when the font handle is absent that
shutdown is the only call of the second `close()`. -/
theorem close_twice (s : State) :
    (close s).display.window_ = none
      ∧ (close s).display.renderer_ = none
      ∧ (close s).display.images_ = []
      ∧ (close (close s)).display = (close s).display
      ∧ (∀ c ∈ issued (close s) (close (close s)), isDestroyCall c = false)
      ∧ (issued (close s) (close (close s))).getLast? = some NativeCall.SDL_Quit
      ∧ (s.display.font_ = none →
          issued (close s) (close (close s)) = [NativeCall.SDL_Quit]) := by
  have hiss : issued (close s) (close (close s))
      = (match s.display.font_ with
         | some f => [NativeCall.TTF_CloseFont (some f), NativeCall.TTF_Quit]
         | none => []) ++ [NativeCall.SDL_Quit] := by
    apply issued_append
    show (close s).calls ++ closeCalls (close s).display = _
    rw [show (close s).display
      = { s.display with images_ := [], renderer_ := none, window_ := none } from rfl,
      closeCalls_closed]
  refine ⟨rfl, rfl, rfl, rfl, ?_, ?_, ?_⟩
  · rw [hiss]
    intro c hc
    cases hf : s.display.font_ with
    | none =>
      rw [hf] at hc
      simp at hc
      subst hc
      rfl
    | some f =>
      rw [hf] at hc
      simp at hc
      rcases hc with rfl | rfl | rfl <;> rfl
  · rw [hiss]
    simp
  · intro hf
    rw [hiss, hf]
    rfl

/-- Witness of the amended C5, on the members with which the constructor calls
`close()` when `TTF_OpenFont` has failed: window and renderer present, font
absent, registry empty. -/
theorem close_twice_witness :
    ({ display := { width_ := 800, height_ := 600, window_ := some 2, renderer_ := some 3,
                    font_ := none, images_ := [] },
       calls := [] } : State).display.font_ = none
      ∧ issued
          (close { display := { width_ := 800, height_ := 600, window_ := some 2,
                                renderer_ := some 3, font_ := none, images_ := [] },
                   calls := [] })
          (close (close { display := { width_ := 800, height_ := 600, window_ := some 2,
                                       renderer_ := some 3, font_ := none, images_ := [] },
                          calls := [] }))
        = [NativeCall.SDL_Quit] :=
  ⟨rfl, (close_twice _).2.2.2.2.2.2 rfl⟩

/-- C6: the blits that a `refresh` issues are, in order, the blits of an
initial segment of the sprite sequence, each with the registry entry at the
image index of its sprite (an index in range whose entry is present), the
destination rectangle (x, y, width, height) of the sprite, angle 0, no
rotation centre, and a flip that is horizontal exactly when the orientation
flag is false and none exactly when it is true. -/
theorem refresh_blits (env : Env) (sprites : List Sprite) (text : String) (s : State) :
    ∃ k, (issued s (refresh env sprites text s).state).filter isBlit
          = (sprites.take k).map (fun sprite =>
              NativeCall.SDL_RenderCopyEx s.display.renderer_
                (s.display.images_.getD sprite.getImageIndex none) none
                (some { x := sprite.getXCoordinate, y := sprite.getYCoordinate,
                        w := sprite.getWidth, h := sprite.getHeight })
                0 none
                (if sprite.getDirection = false then SDL_RendererFlip.SDL_FLIP_HORIZONTAL
                 else SDL_RendererFlip.SDL_FLIP_NONE))
      ∧ ∀ sp ∈ sprites.take k, sp.getImageIndex < getImageCount s
          ∧ ∃ texture, s.display.images_.getD sp.getImageIndex none = some texture := by
  obtain ⟨k, a, b, h1, ha, hb, h2, _⟩ := refresh_trace env sprites text s
  refine ⟨k, ?_, ?_⟩
  · rw [issued_append s _ _ h1, List.filter_append, List.filter_append,
      filter_isBlit_map_specBlit, filter_eq_nil_of_forall_false isBlit a ha,
      filter_eq_nil_of_forall_false isBlit b hb]
    simp only [List.nil_append, List.append_nil]
    apply List.map_congr_left
    intro sp _
    unfold specBlit
    cases sp.getDirection <;> rfl
  · intro sp hsp
    refine ⟨(h2 sp hsp).1, ?_⟩
    cases hget : s.display.images_.getD sp.getImageIndex none with
    | none => exact absurd hget (h2 sp hsp).2
    | some t => exact ⟨t, rfl⟩

/-- C7: on a display with a present renderer, when every image index is below
the registry size and no clear or blit call fails, `refresh` does not throw,
leaves the registry and the window, renderer and font handles unchanged, and
the calls it issues on the renderer are exactly: set the draw colour to opaque
white (255,255,255,255), clear, one blit per sprite in sequence order, one
present; for the empty sprite sequence, the white clear and one present. -/
theorem refresh_draws_frame (env : Env) (s : State) (r : Handle) (sprites : List Sprite)
    (text : String)
    (hreach : Reachable env s) (hr : s.display.renderer_ = some r)
    (hok : DrawCallsSucceed env s.calls)
    (hall : ∀ sp ∈ sprites, sp.getImageIndex < getImageCount s) :
    (refresh env sprites text s).raised = none
      ∧ (refresh env sprites text s).state.display = s.display
      ∧ (issued s (refresh env sprites text s).state).filter onRenderTarget
          = [NativeCall.SDL_SetRenderDrawColor (some r) 255 255 255 255,
             NativeCall.SDL_RenderClear (some r)]
            ++ sprites.map (specBlit s.display)
            ++ [NativeCall.SDL_RenderPresent (some r)]
      ∧ (issued s (refresh env [] text s).state).filter onRenderTarget
          = [NativeCall.SDL_SetRenderDrawColor (some r) 255 255 255 255,
             NativeCall.SDL_RenderClear (some r),
             NativeCall.SDL_RenderPresent (some r)] := by
  have hreg := reachable_registryPresent env s hreach
  have key : ∀ l : List Sprite, (∀ sp ∈ l, sp.getImageIndex < getImageCount s) →
      (issued s (refresh env l text s).state).filter onRenderTarget
        = [NativeCall.SDL_SetRenderDrawColor (some r) 255 255 255 255,
           NativeCall.SDL_RenderClear (some r)]
          ++ l.map (specBlit s.display)
          ++ [NativeCall.SDL_RenderPresent (some r)] := by
    intro l hl
    rw [refresh_ok env l text s r hok hr hreg hl]
    rw [issued_append s _ _ rfl]
    simp only [List.filter_append, filter_onRenderTarget_map_specBlit]
    cases s.display.font_ <;> simp [onRenderTarget]
  refine ⟨?_, ?_, key sprites hall, ?_⟩
  · rw [refresh_ok env sprites text s r hok hr hreg hall]
  · rw [refresh_ok env sprites text s r hok hr hreg hall]
  · have h := key [] (by simp)
    simpa using h

/-- Witness of C7: one image loaded and the sprite (10, 20, 32, 32) of image
index 0 with orientation flag false, drawn horizontally flipped. -/
theorem refresh_draws_frame_witness :
    Reachable envOk oneImageDisplay
      ∧ oneImageDisplay.display.renderer_ = some 3
      ∧ (issued oneImageDisplay
          (refresh envOk [⟨10, 20, 32, 32, 0, false⟩] "" oneImageDisplay).state).filter
            onRenderTarget
        = [NativeCall.SDL_SetRenderDrawColor (some 3) 255 255 255 255,
           NativeCall.SDL_RenderClear (some 3)]
          ++ [⟨10, 20, 32, 32, 0, false⟩].map (specBlit oneImageDisplay.display)
          ++ [NativeCall.SDL_RenderPresent (some 3)]
      ∧ [⟨10, 20, 32, 32, 0, false⟩].map (specBlit oneImageDisplay.display)
        = [NativeCall.SDL_RenderCopyEx (some 3) (some 9) none (some ⟨10, 20, 32, 32⟩) 0 none
            SDL_RendererFlip.SDL_FLIP_HORIZONTAL] :=
  ⟨reachable_oneImageDisplay, by decide,
    (refresh_draws_frame envOk oneImageDisplay 3 [⟨10, 20, 32, 32, 0, false⟩] ""
      reachable_oneImageDisplay (by decide) (drawCallsSucceed_envOk _) (by decide)).2.2.1,
    by decide⟩

/-- C8 fails on the code.  When `TTF_Init` fails, the constructor throws
without tearing down: at the throw the window and the renderer are still
present and no destroy call has been issued.  When `TTF_OpenFont` fails, the
teardown destroys the renderer and the window but never shuts the font
subsystem down (`TTF_Quit` is not called). -/
theorem construct_font_failures :
    construct envTtfInitFails 800 600 []
        = { state :=
              { display := { width_ := 800, height_ := 600, window_ := some 2,
                             renderer_ := some 3, font_ := none, images_ := [] },
                calls := [NativeCall.SDL_Init, NativeCall.SDL_CreateWindow "Display" 800 600,
                          NativeCall.SDL_CreateRenderer (some 2), NativeCall.TTF_Init] },
            raised := some "TTF Initialization failed due to: no font support" }
      ∧ construct envOpenFontFails 800 600 []
        = { state :=
              { display := { width_ := 800, height_ := 600, window_ := none,
                             renderer_ := none, font_ := none, images_ := [] },
                calls := [NativeCall.SDL_Init, NativeCall.SDL_CreateWindow "Display" 800 600,
                          NativeCall.SDL_CreateRenderer (some 2), NativeCall.TTF_Init,
                          NativeCall.TTF_OpenFont "graphics/rubber-biscuit.bold.ttf" 32,
                          NativeCall.SDL_DestroyRenderer (some 3),
                          NativeCall.SDL_DestroyWindow (some 2), NativeCall.SDL_Quit] },
            raised := some "Unable to create font due to: no such font" } := by
  decide

/-- C9 fails on the code.  After `close()` of a constructed display the
renderer is absent but `font_` still holds the closed font, so a later
`refresh` rasterizes the text with it (`TTF_RenderText_Solid`), and a second
`close()` closes the same font again. -/
theorem refresh_after_close_rasterizes :
    (close readyDisplay).display.renderer_ = none
      ∧ (close readyDisplay).display.font_ = some 5
      ∧ NativeCall.TTF_CloseFont (some 5) ∈ issued readyDisplay (close readyDisplay)
      ∧ issued (close readyDisplay) (refresh envOk [] "score" (close readyDisplay)).state
          = [NativeCall.TTF_RenderText_Solid (some 5) "score"
              { r := 0, g := 0, b := 0, a := 0 }]
      ∧ issued (close readyDisplay) (close (close readyDisplay))
          = [NativeCall.TTF_CloseFont (some 5), NativeCall.TTF_Quit, NativeCall.SDL_Quit] := by
  decide

/-- C10: in every state reachable from a successfully constructed display by
`addImage`, `refresh`, `clearBackground` and `close` calls, every registry
entry is a present handle, and a `refresh` on such a state never throws
"Missing image texture at index ...". -/
theorem registry_entries_present (env : Env) (s : State) (h : Reachable env s) :
    (∀ e ∈ s.display.images_, e ≠ none)
      ∧ ∀ (sprites : List Sprite) (text : String) (index : String),
          (refresh env sprites text s).raised
            ≠ some ("Missing image texture at index " ++ index) := by
  have hreg := reachable_registryPresent env s h
  refine ⟨hreg, ?_⟩
  intro sprites text index hcontra
  rcases refresh_raised env sprites text s hreg with h | ⟨e, h⟩ | ⟨e, h⟩ | ⟨e, h⟩
  · rw [h] at hcontra; cases hcontra
  · rw [h] at hcontra
    exact append_ne_of_head_ne _ _ e index 'U' 'M' _ _ rfl rfl (by decide)
      (Option.some.inj hcontra)
  · rw [h] at hcontra
    exact append_ne_of_head_ne _ _ e index 'U' 'M' _ _ rfl rfl (by decide)
      (Option.some.inj hcontra)
  · rw [h] at hcontra
    exact append_ne_of_head_ne _ _ e index 'I' 'M' _ _ rfl rfl (by decide)
      (Option.some.inj hcontra)

/-- Witness of C10: the display with one image loaded. -/
theorem registry_entries_present_witness :
    Reachable envOk oneImageDisplay
      ∧ oneImageDisplay.display.images_ = [some 9]
      ∧ (refresh envOk [⟨10, 20, 32, 32, 0, true⟩] "" oneImageDisplay).raised
          ≠ some ("Missing image texture at index " ++ "0") :=
  ⟨reachable_oneImageDisplay, by decide,
    (registry_entries_present envOk oneImageDisplay reachable_oneImageDisplay).2
      [⟨10, 20, 32, 32, 0, true⟩] "" "0"⟩

end project
